import Mathlib

/-!
Verification of the ai-gateway request routing and admission control engine.

Shallow embedding of the Python source:
  app/models.py    - data model (Provider, GatewayKey, ModelGroup, GroupMember)
  app/security.py  - verify_usage
  app/routers/gateway.py - check_limits, select_model_from_group,
                           handle_litellm_exception, list_models, chat
  app/utils.py     - fetch_provider_models (result shape)

Python integers are modelled as Int, Python strings as Lean String
(with parsing helpers working on the underlying character list),
the Redis counter store as an explicit state value threaded through
the functions, and random.choice as a function of an externally
supplied draw.
-/

namespace AIGateway

/-- Single-quote character, used to reproduce the exact f-string error
messages of the source without a quote character in this file's literals. -/
def sq : String := ⟨[Char.ofNat 39]⟩

/-- Wrap a string in single quotes, as the source's f-strings do. -/
def q (s : String) : String := sq ++ s ++ sq

/-! ## Data model (app/models.py) -/

/-- app/models.py class Provider. -/
structure Provider where
  name : String
  api_key : String
  base_url : Option String
  provider_type : String
deriving DecidableEq

/-- app/models.py class GatewayKey. -/
structure GatewayKey where
  key : String
  name : String
  usage_count : Int
  is_active : Bool
  is_hidden : Bool
  rate_limit : Option Int
  usage_limit : Option Int
deriving DecidableEq

/-- app/models.py class ModelGroup. -/
structure ModelGroup where
  id : String
  description : Option String
  balance_strategy : String
deriving DecidableEq

/-- app/models.py class GroupMember. -/
structure GroupMember where
  id : Int
  group_id : String
  target_model : String
  provider_name : String
  weight : Int
deriving DecidableEq

instance : Inhabited GroupMember := ⟨⟨0, "", "", "", 1⟩⟩

deriving instance DecidableEq for Except

/-- A raised fastapi HTTPException, carrying status code and detail. -/
structure HTTPError where
  status : Nat
  detail : String
deriving DecidableEq

/-! ## Redis counter model

The code uses a single Redis key per purpose (`ratelimit:{key}` or
`rr_counter:{group}`) through INCR and EXPIRE.  We model the state of one
such Redis key: `none` is an absent key, otherwise a value with an
optional absolute expiry time (seconds).  A key whose expiry time has been
reached behaves as absent. -/

structure RedisEntry where
  value : Int
  expiresAt : Option Nat
deriving DecidableEq

abbrev RedisKeyState := Option RedisEntry

/-- The entry visible at time `now`: an expired key behaves as absent. -/
def redisLive (st : RedisKeyState) (now : Nat) : RedisKeyState :=
  match st with
  | none => none
  | some e =>
    match e.expiresAt with
    | none => some e
    | some t => if now < t then some e else none

/-- Redis INCR: an absent (or expired) key is created at 1 with no TTL;
otherwise the value is incremented, keeping the TTL.  Returns the
post-increment value, as the Python client does. -/
def redisIncr (st : RedisKeyState) (now : Nat) : Int × RedisKeyState :=
  match redisLive st now with
  | none => (1, some ⟨1, none⟩)
  | some e => (e.value + 1, some ⟨e.value + 1, e.expiresAt⟩)

/-- Redis EXPIRE: attach an expiry `secs` seconds from now to a live key;
a no-op on an absent key. -/
def redisExpire (st : RedisKeyState) (now : Nat) (secs : Nat) : RedisKeyState :=
  match redisLive st now with
  | none => none
  | some e => some ⟨e.value, some (now + secs)⟩

/-! ## Admission control (app/security.py verify_usage,
app/routers/gateway.py check_limits) -/

/-- app/security.py `verify_usage`, bearer-token path: `key_record` is the
stored GatewayKey found for the presented token (`none` when the lookup
failed).  An inactive or missing record raises 401; otherwise
`usage_count` is incremented and committed, and the updated record is
returned. -/
def verify_usage (key_record : Option GatewayKey) : Except HTTPError GatewayKey :=
  match key_record with
  | none => Except.error ⟨401, "Invalid API Key"⟩
  | some k =>
    if k.is_active then Except.ok { k with usage_count := k.usage_count + 1 }
    else Except.error ⟨401, "Invalid API Key"⟩

/-- The quota test of `check_limits`:
`k.usage_limit is not None and k.usage_count >= k.usage_limit`. -/
def quotaExceeded (k : GatewayKey) : Bool :=
  match k.usage_limit with
  | some u => decide (u ≤ k.usage_count)
  | none => false

/-- app/routers/gateway.py `check_limits` (lines 26-36): 403 when the usage
limit is reached; otherwise, when a rate limit is set and Redis is
available, INCR the per-key counter, attach a 60 second TTL when this was
the first hit of the window, and 429 when the post-increment count
exceeds the limit.  Returns the verdict and the new Redis key state. -/
def check_limits (k : GatewayKey) (redisAvail : Bool) (rst : RedisKeyState) (now : Nat) :
    Except HTTPError Unit × RedisKeyState :=
  if quotaExceeded k then
    (Except.error ⟨403, "Usage limit exceeded."⟩, rst)
  else
    match k.rate_limit with
    | some r =>
      if redisAvail then
        let inc := redisIncr rst now
        let current := inc.1
        let rst1 := if current = 1 then redisExpire inc.2 now 60 else inc.2
        if current > r then (Except.error ⟨429, "Rate limit exceeded."⟩, rst1)
        else (Except.ok (), rst1)
      else (Except.ok (), rst)
    | none => (Except.ok (), rst)

/-- One serialized call through the admission path of every gateway
endpoint: the `verify_usage` dependency runs first (and commits its
increment), then `check_limits`.  Returns the verdict, the stored key
record after the call, and the Redis key state after the call. -/
def admission_call (k : GatewayKey) (redisAvail : Bool) (rst : RedisKeyState) (now : Nat) :
    Except HTTPError Unit × GatewayKey × RedisKeyState :=
  match verify_usage (some k) with
  | Except.error e => (Except.error e, k, rst)
  | Except.ok k1 =>
    let cr := check_limits k1 redisAvail rst now
    (cr.1, k1, cr.2)

/-- `n` serialized calls on one key with no Redis involved (no rate
limit).  Component 1 is the verdict of the `n`-th call, component 2 the
stored key record after `n` calls. -/
def quotaRun (k : GatewayKey) : Nat → Except HTTPError Unit × GatewayKey
  | 0 => (Except.ok (), k)
  | n + 1 =>
    let prev := quotaRun k n
    let step := admission_call prev.2 false none 0
    (step.1, step.2.1)

/-- A fresh active key with usage limit `U` and no rate limit. -/
def freshKey (U : Int) : GatewayKey :=
  ⟨"sk-client", "Client App", 0, true, false, none, some U⟩

/-- A fresh active key with rate limit `R` and no usage limit. -/
def rlKey (R : Int) : GatewayKey :=
  ⟨"sk-client", "Client App", 0, true, false, some R, none⟩

/-- `n` serialized calls on one key with Redis available, call `i`
(1-based) happening at time `times (i - 1)`.  Component 1 is the verdict
of the `n`-th call, component 2.1 the stored key record and component 2.2
the state of the `ratelimit:` Redis key after `n` calls. -/
def rateRun (k : GatewayKey) (times : Nat → Nat) :
    Nat → Except HTTPError Unit × GatewayKey × RedisKeyState
  | 0 => (Except.ok (), k, none)
  | n + 1 =>
    let prev := rateRun k times n
    admission_call prev.2.1 true prev.2.2 (times n)

/-! ## Model resolution (app/routers/gateway.py select_model_from_group) -/

/-- The configuration read by the resolver: ModelGroup, GroupMember and
Provider rows of the database.  `session.get(Model, id)` is lookup by
primary key, modelled as `find?` on the row list. -/
structure DB where
  groups : List ModelGroup
  members : List GroupMember
  providers : List Provider

/-- `session.get(ModelGroup, gid)`. -/
def dbGetGroup (db : DB) (gid : String) : Option ModelGroup :=
  db.groups.find? (fun g => g.id == gid)

/-- `select(GroupMember).where(GroupMember.group_id == gid)`. -/
def dbGroupMembers (db : DB) (gid : String) : List GroupMember :=
  db.members.filter (fun m => m.group_id == gid)

/-- `session.get(Provider, name)`. -/
def dbGetProvider (db : DB) (name : String) : Option Provider :=
  db.providers.find? (fun p => p.name == name)

/-- Python `s.startswith(p)`. -/
def strStartsWith (s p : String) : Bool :=
  p.data.isPrefixOf s.data

/-- The group namespace marker `"group/"`. -/
def groupNS : String := "group/"

/-- `raw_model_id.replace("group/", "", 1)` under the guard that
`raw_model_id` starts with `"group/"`: the first occurrence is the
prefix, so this is dropping the first six characters. -/
def groupIdOf (raw : String) : String := ⟨raw.data.drop 6⟩

/-- Split a character list at the first occurrence of `c`; `none` when
`c` does not occur. -/
def splitCharList (c : Char) : List Char → Option (List Char × List Char)
  | [] => none
  | x :: xs =>
    if x = c then some ([], xs)
    else
      match splitCharList c xs with
      | none => none
      | some pair => some (x :: pair.1, pair.2)

/-- Python `s.split(c, 1)` restricted to the case used by the code:
`some (before, after)` when `c` occurs in `s` (so that `"/" in s` is
`(splitFirst s c).isSome`), `none` otherwise. -/
def splitFirst (s : String) (c : Char) : Option (String × String) :=
  match splitCharList c s.data with
  | none => none
  | some pair => some (⟨pair.1⟩, ⟨pair.2⟩)

/-- `random.choice(l)` on a non-empty list, parametrized by the random
draw `pick`: a uniform pick is an arbitrary in-range index.  (On an empty
list Python raises; the code only calls it on non-empty lists, and the
model returns the default member there.) -/
def randomChoice (l : List GroupMember) (pick : Nat) : GroupMember :=
  l.getD (pick % l.length) default

/-- Member selection of `select_model_from_group` (lines 111-123): the
`balance_strategy` dispatch.  `rr` is the value of the group's
`rr_counter:` Redis key before the call; the returned Int is its value
after the call (INCR happens only in the round_robin-with-Redis branch).
The round_robin branch indexes `members` with the post-increment counter
modulo the member count; the weighted branch replicates each member
`weight` times and picks uniformly from the pool (falling back to a
uniform pick among the members when the pool is empty); anything else is
a uniform pick among the members. -/
def pickMember (strategy : String) (redisAvail : Bool) (rr : Int) (pick : Nat)
    (ms : List GroupMember) : GroupMember × Int :=
  if strategy == "round_robin" && redisAvail then
    let count := rr + 1
    (ms.getD (count % (ms.length : Int)).toNat default, count)
  else if strategy == "weighted" then
    let pool := ms.flatMap (fun m => List.replicate m.weight.toNat m)
    (if pool.isEmpty then randomChoice ms pick else randomChoice pool pick, rr)
  else
    (randomChoice ms pick, rr)

/-- Outcome of `select_model_from_group`: a resolved (provider, model)
pair, the `(None, None)` return, or a raised HTTPException. -/
inductive RouteResult where
  | ok (p : Provider) (model : String)
  | noRoute
  | httpError (e : HTTPError)
deriving DecidableEq

/-- Lines 125-129: look the selected member's provider up; absent
provider raises 500. -/
def memberRoute (db : DB) (m : GroupMember) : RouteResult :=
  match dbGetProvider db m.provider_name with
  | none =>
    RouteResult.httpError
      ⟨500, "Provider " ++ q m.provider_name ++ " linked to group not found."⟩
  | some p => RouteResult.ok p m.target_model

/-- app/routers/gateway.py `select_model_from_group` (lines 90-141).
`rr` is the group's Redis round-robin counter before the call and the
returned Int its value after the call. -/
def select_model_from_group (db : DB) (redisAvail : Bool) (rr : Int) (pick : Nat)
    (raw_model_id : String) : RouteResult × Int :=
  if strStartsWith raw_model_id groupNS then
    let clean_id := groupIdOf raw_model_id
    match dbGetGroup db clean_id with
    | none =>
      (RouteResult.httpError ⟨404, "Model Group " ++ q clean_id ++ " not found."⟩, rr)
    | some group =>
      let ms := dbGroupMembers db clean_id
      if ms.isEmpty then
        (RouteResult.httpError ⟨503, "Group " ++ q clean_id ++ " has no active models."⟩, rr)
      else
        let sel := pickMember group.balance_strategy redisAvail rr pick ms
        (memberRoute db sel.1, sel.2)
  else
    match splitFirst raw_model_id '/' with
    | some pair =>
      match dbGetProvider db pair.1 with
      | some provider => (RouteResult.ok provider pair.2, rr)
      | none => (RouteResult.noRoute, rr)
    | none => (RouteResult.noRoute, rr)

/-- The hint text of the chat endpoint's 404. -/
def groupNameHint : String := "group/name"

/-- The hint text of the chat endpoint's 404, second half. -/
def providerModelHint : String := "provider/model"

/-- The resolution step of the `chat` endpoint (lines 192-195): a
`(None, None)` resolution becomes a 404; a raised HTTPException
propagates; dispatch to the backend happens only on `Except.ok`. -/
def chat_route (db : DB) (redisAvail : Bool) (rr : Int) (pick : Nat) (raw : String) :
    Except HTTPError (Provider × String) :=
  match (select_model_from_group db redisAvail rr pick raw).1 with
  | RouteResult.ok p m => Except.ok (p, m)
  | RouteResult.noRoute =>
    Except.error ⟨404, "Model " ++ q raw ++ " not found. Use " ++ q groupNameHint
      ++ " or " ++ q providerModelHint ++ "."⟩
  | RouteResult.httpError e => Except.error e

/-! ## Error normalization (app/routers/gateway.py handle_litellm_exception) -/

/-- The attributes of a backend-raised Python exception that
`handle_litellm_exception` inspects: the class name, an integer
`status_code` attribute when present (`isinstance(sc, int)`), a truthy
`message` attribute when present, a `body["message"]` entry when the
`body` attribute is a dict containing one, and `str(e)`. -/
structure PyExc where
  className : String
  statusAttr : Option Int
  messageAttr : Option String
  bodyMessage : Option String
  strRepr : String

/-- Head of the remainder is a lowercase letter: the `[a-z]` requirement
after the `[A-Z]` of the first regex. -/
def headIsLower : List Char → Bool
  | [] => false
  | c :: _ => c.isLower

/-- Fuelled engine for `re.sub('(.)([A-Z][a-z]+)', r'\1_\2', s)`:
scanning left to right, a match is any character followed by an uppercase
letter and a maximal non-empty lowercase run; an underscore is inserted
after the first character and scanning resumes after the consumed run.
The fuel only bounds the recursion; `fuel = l.length` always suffices
since every step consumes at least one character. -/
def sub1Go : Nat → List Char → List Char
  | _, [] => []
  | _, [c] => [c]
  | 0, l => l
  | fuel + 1, c1 :: c2 :: rest =>
    if c2.isUpper && headIsLower rest then
      c1 :: '_' :: c2 ::
        (rest.takeWhile Char.isLower ++ sub1Go fuel (rest.dropWhile Char.isLower))
    else
      c1 :: sub1Go fuel (c2 :: rest)

/-- `re.sub('(.)([A-Z][a-z]+)', r'\1_\2', s)` on the character list. -/
def sub1 (l : List Char) : List Char := sub1Go l.length l

/-- `re.sub('([a-z0-9])([A-Z])', r'\1_\2', s)` on the character list:
an underscore is inserted between a lowercase letter or digit and an
uppercase letter.  (Consuming the matched pair on resume is equivalent
here because the second character, being uppercase, can never start the
next match.) -/
def sub2 : List Char → List Char
  | [] => []
  | [c] => [c]
  | c1 :: c2 :: rest =>
    if (c1.isLower || c1.isDigit) && c2.isUpper then
      c1 :: '_' :: c2 :: sub2 rest
    else
      c1 :: sub2 (c2 :: rest)

/-- Lines 65-70: CamelCase class name to snake_case error type via the
two regex substitutions followed by `.lower()`. -/
def camelToSnake (s : String) : String :=
  ⟨(sub2 (sub1 s.data)).map Char.toLower⟩

/-- The normalized error produced by `handle_litellm_exception`:
the HTTP status of the JSONResponse and the `message`, `type`, `code`
fields of its error object (`param` is always `None`). -/
structure ErrorResponse where
  httpStatus : Int
  message : String
  errType : String
  code : Int
deriving DecidableEq

/-- app/routers/gateway.py `handle_litellm_exception` (lines 39-87):
status defaults to 500 and is overridden by an integer `status_code`
attribute; the message prefers `e.message`, then `e.body["message"]`,
then `str(e)`; the type is the snake_case form of the class name (every
object has `__class__`, so the `internal_server_error` default is always
overwritten); the body's `code` equals the HTTP status. -/
def handle_litellm_exception (e : PyExc) : ErrorResponse :=
  let status_code : Int :=
    match e.statusAttr with
    | some sc => sc
    | none => 500
  let message : String :=
    match e.messageAttr with
    | some m => m
    | none =>
      match e.bodyMessage with
      | some m => m
      | none => e.strRepr
  let error_type := camelToSnake e.className
  ⟨status_code, message, error_type, status_code⟩

/-! ## Model catalog (app/routers/gateway.py list_models, lines 146-173)

The code at these lines performs a fresh fan-out on every call: it reads
all Provider rows, fetches each provider's upstream model list
concurrently, flattens the results in provider order, and appends one
synthetic entry per ModelGroup.  No cache is consulted or written
(`CACHE_TTL` is imported at gateway.py line 21 but never used, and the
`refresh_model_cache` that app/routers/admin.py imports from app.utils
does not exist there). -/

/-- One entry of the returned model list (app/utils.py lines 78-87 and
gateway.py lines 163-171). -/
structure ModelEntry where
  id : String
  object : String
  created : Nat
  owned_by : String
deriving DecidableEq

/-- app/utils.py `fetch_provider_models`, with the upstream HTTP exchange
abstracted as `upstream`, giving per provider name the model id list
extracted from that provider's response (empty on fetch failure, as the
code swallows errors).  Each id is formatted `alias/model_name` with the
fixed dummy timestamp of the source. -/
def fetch_provider_models (upstream : String → List String) (p : Provider) :
    List ModelEntry :=
  (upstream p.name).map
    (fun mid => ⟨p.name ++ "/" ++ mid, "model", 1700000000, p.provider_type⟩)

/-- gateway.py lines 163-171: the synthetic catalog entry of a group,
namespaced with `group/` unless already so, created at the current
time. -/
def groupEntry (now : Nat) (g : ModelGroup) : ModelEntry :=
  ⟨if strStartsWith g.id groupNS then g.id else groupNS ++ g.id,
    "model", now, "gateway-group"⟩

/-- gateway.py `list_models` (lines 146-173), after admission: a function
of the Provider rows, the ModelGroup rows, the upstream responses and the
current time only — there is no cache state. -/
def list_models (upstream : String → List String) (ps : List Provider)
    (gs : List ModelGroup) (now : Nat) : List ModelEntry :=
  (ps.map (fetch_provider_models upstream)).flatten ++ gs.map (groupEntry now)

/-! ## Concrete configurations used by witnesses and counterexamples -/

/-- A key already over its quota: five calls recorded, limit 1. -/
def kOver : GatewayKey := ⟨"sk-over", "App", 5, true, false, none, some 1⟩

/-- An active key with both limits set, far from either. -/
def kRoom : GatewayKey := ⟨"sk-room", "App", 0, true, false, some 10, some 100⟩

/-- A group with no members. -/
def db4 : DB := ⟨[⟨"g1", none, "random"⟩], [], []⟩

/-- The model string naming that group. -/
def rawG1 : String := "group/g1"

/-- A three-member round_robin group with all providers present. -/
def db6 : DB :=
  ⟨[⟨"g", none, "round_robin"⟩],
   [⟨1, "g", "t1", "p1", 1⟩, ⟨2, "g", "t2", "p2", 1⟩, ⟨3, "g", "t3", "p3", 1⟩],
   [⟨"p1", "k1", none, "openai"⟩, ⟨"p2", "k2", none, "openai"⟩,
    ⟨"p3", "k3", none, "openai"⟩]⟩

/-- The model string naming that group. -/
def rawG : String := "group/g"

/-- A configuration whose only provider is literally named `group`. -/
def db8c : DB := ⟨[], [], [⟨"group", "sk-x", none, "openai"⟩]⟩

/-- A direct-form model string whose alias is that provider's name. -/
def rawGroupM : String := "group/m"

/-- A configuration with one ordinary provider `p1`. -/
def db8w : DB := ⟨[], [], [⟨"p1", "sk-1", none, "openai"⟩]⟩

/-- A direct route through provider `p1`. -/
def rawP1 : String := "p1/gpt-x"

/-- A two-member group whose first member references a provider that does
not exist while the second member's provider does. -/
def db10 : DB :=
  ⟨[⟨"g", none, "random"⟩],
   [⟨1, "g", "t1", "missing", 1⟩, ⟨2, "g", "t2", "okp", 1⟩],
   [⟨"okp", "k", none, "openai"⟩]⟩

/-- A backend authentication failure carrying HTTP status 401. -/
def authExc : PyExc :=
  ⟨"AuthenticationError", some 401, some "Invalid upstream key", none, "auth"⟩

/-- Catalog fan-out fixture: two providers. -/
def p1C : Provider := ⟨"p1", "k1", none, "openai"⟩

/-- Catalog fan-out fixture: second provider. -/
def p2C : Provider := ⟨"p2", "k2", none, "openai"⟩

/-- Upstream responses of the catalog fixture. -/
def demoUpstream : String → List String :=
  fun n => if n == "p1" then ["m1"] else if n == "p2" then ["m2"] else []

/-- A call schedule with every call at time 0. -/
def zeroTimes : Nat → Nat := fun _ => 0

/-! ## Helper lemmas -/

/-- An active key always passes `verify_usage` with its counter
incremented and committed. -/
theorem verify_usage_active (k : GatewayKey) (h : k.is_active = true) :
    verify_usage (some k) = Except.ok { k with usage_count := k.usage_count + 1 } := by
  simp [verify_usage, h]

/-- For an active key, one admission call increments and commits the
counter first and only then runs the quota and rate checks. -/
theorem admission_call_active (k : GatewayKey) (ra : Bool) (rst : RedisKeyState) (now : Nat)
    (h : k.is_active = true) :
    admission_call k ra rst now =
      ((check_limits { k with usage_count := k.usage_count + 1 } ra rst now).1,
       { k with usage_count := k.usage_count + 1 },
       (check_limits { k with usage_count := k.usage_count + 1 } ra rst now).2) := by
  simp [admission_call, verify_usage_active k h]

/-- With no rate limit configured, `check_limits` is the quota test
alone and leaves Redis untouched. -/
theorem check_limits_no_rate (k : GatewayKey) (ra : Bool) (rst : RedisKeyState) (now : Nat)
    (h : k.rate_limit = none) :
    check_limits k ra rst now =
      (if quotaExceeded k then Except.error ⟨403, "Usage limit exceeded."⟩
       else Except.ok (), rst) := by
  simp only [check_limits, h]
  split <;> rfl

/-- After `n` serialized calls the stored record of a fresh quota-limited
key holds `usage_count = n`, admitted or not. -/
theorem quotaRun_key (U : Int) : ∀ n : Nat,
    (quotaRun (freshKey U) n).2 = { freshKey U with usage_count := (n : Int) } := by
  intro n
  induction n with
  | zero => rfl
  | succ m ih =>
    simp only [quotaRun, ih]
    rw [admission_call_active _ _ _ _ (by rfl)]
    simp [freshKey]

/-! ## Claim C1 -/

/-- Claim C1, counterexample: a fresh key with `usageLimit = 1` is
rejected with the 403 quota error already at call 1, although the claim
(with `U = 1`) states that call 1 is admitted and only call 2 rejected. -/
theorem quota_claim_counterexample :
    (quotaRun (freshKey 1) 1).1 = Except.error ⟨403, "Usage limit exceeded."⟩ ∧
    (quotaRun (freshKey 1) 1).1 ≠ Except.ok () := by
  constructor
  · rfl
  · decide

/-- Claim C1, amended: under serialized calls, a fresh active key with
`usageLimit = U` and no rate limit is admitted on call `n` exactly when
`n < U`, i.e. calls 1 through U-1 are admitted and every call from the
U-th on is rejected with the 403 quota error — the `verify_usage`
dependency increments `usage_count` before `check_limits` compares it to
the limit, so the n-th call is checked with counter value n. -/
theorem quota_first_rejection (U : Int) (n : Nat) (hn : 1 ≤ n) :
    (quotaRun (freshKey U) n).1 =
      if (n : Int) < U then Except.ok ()
      else Except.error ⟨403, "Usage limit exceeded."⟩ := by
  obtain ⟨m, rfl⟩ : ∃ m, n = m + 1 := ⟨n - 1, by omega⟩
  simp only [quotaRun, quotaRun_key U m]
  rw [admission_call_active _ _ _ _ (by rfl)]
  rw [check_limits_no_rate _ _ _ _ (by rfl)]
  simp only [quotaExceeded, freshKey, decide_eq_true_eq]
  push_cast
  by_cases h : U ≤ (m : Int) + 1
  · rw [if_pos h, if_neg (by omega)]
  · rw [if_neg h, if_pos (by omega)]

/-- Witness for `quota_first_rejection` at `U = 3`, `n = 1`. -/
theorem quota_first_rejection_witness :
    (quotaRun (freshKey 3) 1).1 =
      if ((1 : Nat) : Int) < 3 then Except.ok ()
      else Except.error ⟨403, "Usage limit exceeded."⟩ :=
  quota_first_rejection 3 1 (by decide)

/-! ## Claim C3 -/

/-- Claim C3, counterexample: a valid active key already over its quota
has its stored `usage_count` raised from 5 to 6 by a call that is then
rejected with 403 — `usageCount` does not change only on acceptance. -/
theorem usage_increment_counterexample :
    (admission_call kOver false none 0).1 = Except.error ⟨403, "Usage limit exceeded."⟩ ∧
    (admission_call kOver false none 0).2.1.usage_count = 6 := by
  exact ⟨rfl, rfl⟩

/-- Claim C3, amended: every authenticated call (valid active key)
increments the stored `usage_count` by exactly one, committed during the
`verify_usage` dependency — i.e. before the admission checks run and
before any dispatch can begin — regardless of whether the call is then
admitted, rejected over quota or rate, or its dispatch later fails; only
the counter field changes.  (In the endpoint bodies, gateway.py lines
179-246, no code after `check_limits` writes the GatewayKey, so this is
the stored record after the request however dispatch ends.) -/
theorem usage_increment_unconditional (k : GatewayKey) (ra : Bool) (rst : RedisKeyState)
    (now : Nat) (hact : k.is_active = true) :
    (admission_call k ra rst now).2.1 = { k with usage_count := k.usage_count + 1 } := by
  rw [admission_call_active k ra rst now hact]

/-- Witness for `usage_increment_unconditional` on a concrete key. -/
theorem usage_increment_unconditional_witness :
    (admission_call kRoom true none 0).2.1 = { kRoom with usage_count := kRoom.usage_count + 1 } :=
  usage_increment_unconditional kRoom true none 0 rfl

/-! ## Claim C5 -/

/-- With no usage limit and rate limit `R`, `check_limits` with Redis
available is the INCR / first-hit-EXPIRE / threshold sequence of
gateway.py lines 30-36. -/
theorem check_limits_rate (k : GatewayKey) (rst : RedisKeyState) (now : Nat) (R : Int)
    (hu : k.usage_limit = none) (hr : k.rate_limit = some R) :
    check_limits k true rst now =
      (if (redisIncr rst now).1 > R then Except.error ⟨429, "Rate limit exceeded."⟩
       else Except.ok (),
       if (redisIncr rst now).1 = 1 then redisExpire (redisIncr rst now).2 now 60
       else (redisIncr rst now).2) := by
  simp only [check_limits, quotaExceeded, hu, hr]
  by_cases h : (redisIncr rst now).1 > R <;> simp [h]

/-- Window invariant: starting from an absent rate-limit key, after
`m + 1` serialized calls that all happen strictly before `t0 + 60`
(the first one at `t0`), the stored key counted every call, the Redis
counter is at `m + 1` with the expiry `t0 + 60` attached by the first
call, and the `m + 1`-st verdict admits exactly when `m + 1 ≤ R`. -/
theorem rateRun_window (R : Int) (t0 : Nat) (times : Nat → Nat) (h0 : times 0 = t0) :
    ∀ m : Nat, (∀ i, i < m + 1 → times i < t0 + 60) →
      (rateRun (rlKey R) times (m + 1)).2.1 = { rlKey R with usage_count := (m : Int) + 1 } ∧
      (rateRun (rlKey R) times (m + 1)).2.2 = some ⟨(m : Int) + 1, some (t0 + 60)⟩ ∧
      (rateRun (rlKey R) times (m + 1)).1 =
        (if (m : Int) + 1 ≤ R then Except.ok ()
         else Except.error ⟨429, "Rate limit exceeded."⟩) := by
  intro m
  induction m with
  | zero =>
    intro _
    simp only [rateRun]
    rw [admission_call_active _ _ _ _ (by rfl)]
    rw [check_limits_rate _ _ _ R (by rfl) (by rfl)]
    simp [redisIncr, redisLive, redisExpire, rlKey, h0]
    by_cases hR1 : (1 : Int) ≤ R
    · rw [if_neg (by omega), if_pos hR1]
    · rw [if_pos (by omega), if_neg hR1]
  | succ p ih =>
    intro hw
    obtain ⟨hkey, hst, _⟩ := ih (fun i hi => hw i (by omega))
    have hstep : rateRun (rlKey R) times (p + 1 + 1) =
        admission_call (rateRun (rlKey R) times (p + 1)).2.1 true
          (rateRun (rlKey R) times (p + 1)).2.2 (times (p + 1)) := rfl
    rw [hstep, hkey, hst]
    rw [admission_call_active _ _ _ _ (by rfl)]
    rw [check_limits_rate _ _ _ R (by rfl) (by rfl)]
    have hlive : times (p + 1) < t0 + 60 := hw (p + 1) (by omega)
    simp [redisIncr, redisLive, redisExpire, rlKey, hlive]
    constructor
    · intro h
      exact absurd h (by omega)
    · by_cases hle : (p : Int) + 1 + 1 ≤ R
      · rw [if_neg (by omega), if_pos hle]
      · rw [if_pos (by omega), if_neg hle]

/-- Claim C5: for an active key with `rateLimitPerMinute = R` (no usage
limit) and Redis configured, under serialized calls starting from an
absent counter with call 1 at time `t0` and calls 1..n all before
`t0 + 60`: the per-key counter is incremented on every call (its value
is `n` after `n` calls), the 60-second expiry `t0 + 60` is attached by
the first increment of the window, call `n` is admitted exactly when
`n ≤ R` (so calls 1..R are admitted and call R+1 is rejected with the
429 error), and a further call at any time from `t0 + 60` on is admitted
again. -/
theorem rate_limit_window (R : Int) (t0 tLater : Nat) (times : Nat → Nat) (n : Nat)
    (h0 : times 0 = t0) (hn : 1 ≤ n) (hw : ∀ i, i < n → times i < t0 + 60)
    (hR : 1 ≤ R) (hlate : t0 + 60 ≤ tLater) :
    ((rateRun (rlKey R) times n).1 =
        if (n : Int) ≤ R then Except.ok ()
        else Except.error ⟨429, "Rate limit exceeded."⟩) ∧
    ((rateRun (rlKey R) times n).2.2 = some ⟨(n : Int), some (t0 + 60)⟩) ∧
    ((admission_call (rateRun (rlKey R) times n).2.1 true
        (rateRun (rlKey R) times n).2.2 tLater).1 = Except.ok ()) := by
  obtain ⟨m, rfl⟩ : ∃ m, n = m + 1 := ⟨n - 1, by omega⟩
  obtain ⟨hkey, hst, hres⟩ := rateRun_window R t0 times h0 m hw
  refine ⟨?_, ?_, ?_⟩
  · rw [hres]
    push_cast
    rfl
  · rw [hst]
    push_cast
    rfl
  · rw [hkey, hst]
    rw [admission_call_active _ _ _ _ (by rfl)]
    rw [check_limits_rate _ _ _ R (by rfl) (by rfl)]
    have hdead : ¬ tLater < t0 + 60 := by omega
    have h1 : ¬ ((1 : Int) > R) := by omega
    simp [redisIncr, redisLive, redisExpire, hdead, h1]

/-- Witness for `rate_limit_window`: limit 1, two calls at time 0, a
later call at time 60. -/
theorem rate_limit_window_witness :
    ((rateRun (rlKey 1) zeroTimes 2).1 =
        if ((2 : Nat) : Int) ≤ 1 then Except.ok ()
        else Except.error ⟨429, "Rate limit exceeded."⟩) ∧
    ((rateRun (rlKey 1) zeroTimes 2).2.2 = some ⟨((2 : Nat) : Int), some (0 + 60)⟩) ∧
    ((admission_call (rateRun (rlKey 1) zeroTimes 2).2.1 true
        (rateRun (rlKey 1) zeroTimes 2).2.2 60).1 = Except.ok ()) :=
  rate_limit_window 1 0 60 zeroTimes 2 rfl (by decide) (fun i _ => by simp [zeroTimes])
    (by decide) (by decide)

/-! ## Claim C4 -/

/-- Claim C4: resolving a model string that names an existing group with
zero members raises the 503 no-capacity error before any member
selection (the round-robin counter is untouched), and the chat pipeline
propagates exactly that 503 instead of dispatching (dispatch happens
only on an `Except.ok` route). -/
theorem empty_group_503 (db : DB) (redisAvail : Bool) (rr : Int) (pick : Nat) (raw : String)
    (g : ModelGroup)
    (hp : strStartsWith raw groupNS = true)
    (hg : dbGetGroup db (groupIdOf raw) = some g)
    (hms : dbGroupMembers db (groupIdOf raw) = []) :
    select_model_from_group db redisAvail rr pick raw =
      (RouteResult.httpError ⟨503, "Group " ++ q (groupIdOf raw) ++ " has no active models."⟩,
       rr) ∧
    chat_route db redisAvail rr pick raw =
      Except.error ⟨503, "Group " ++ q (groupIdOf raw) ++ " has no active models."⟩ := by
  have hsel : select_model_from_group db redisAvail rr pick raw =
      (RouteResult.httpError ⟨503, "Group " ++ q (groupIdOf raw) ++ " has no active models."⟩,
       rr) := by
    simp [select_model_from_group, hp, hg, hms]
  exact ⟨hsel, by simp [chat_route, hsel]⟩

/-- Witness for `empty_group_503`: the member-less group `g1`. -/
theorem empty_group_503_witness :
    select_model_from_group db4 true 0 0 rawG1 =
      (RouteResult.httpError ⟨503, "Group " ++ q (groupIdOf rawG1) ++ " has no active models."⟩,
       0) ∧
    chat_route db4 true 0 0 rawG1 =
      Except.error ⟨503, "Group " ++ q (groupIdOf rawG1) ++ " has no active models."⟩ :=
  empty_group_503 db4 true 0 0 rawG1 ⟨("g1"), none, ("random")⟩ (by decide) (by decide)
    (by decide)

/-! ## Claim C10 -/

/-- Claim C10: when the member selected from a group references a
provider name with no Provider row, resolution raises the 500 error (not
a 404), with no retry and no fallback to any other member — the result
is determined by the one selected member alone. -/
theorem member_provider_missing_500 (db : DB) (redisAvail : Bool) (rr : Int) (pick : Nat)
    (raw : String) (g : ModelGroup)
    (hp : strStartsWith raw groupNS = true)
    (hg : dbGetGroup db (groupIdOf raw) = some g)
    (hms : (dbGroupMembers db (groupIdOf raw)).isEmpty = false)
    (hmiss : dbGetProvider db
        ((pickMember g.balance_strategy redisAvail rr pick
            (dbGroupMembers db (groupIdOf raw))).1.provider_name) = none) :
    (select_model_from_group db redisAvail rr pick raw).1 =
      RouteResult.httpError ⟨500, "Provider " ++
        q ((pickMember g.balance_strategy redisAvail rr pick
            (dbGroupMembers db (groupIdOf raw))).1.provider_name)
        ++ " linked to group not found."⟩ := by
  simp [select_model_from_group, hp, hg, hms, memberRoute, hmiss]

/-- Witness for `member_provider_missing_500`: the random draw selects
the member bound to the absent provider `missing` while the group's
other member has a perfectly valid provider, and the result is still the
500 error. -/
theorem member_provider_missing_500_witness :
    (select_model_from_group db10 true 0 0 rawG).1 =
      RouteResult.httpError ⟨500, "Provider " ++ q ("missing")
        ++ " linked to group not found."⟩ :=
  (member_provider_missing_500 db10 true 0 0 rawG ⟨("g"), none, ("random")⟩ (by decide)
    (by decide) (by decide) (by decide)).trans (by decide)

/-! ## Claim C8 -/

/-- Claim C8, counterexample: with a Provider literally named `group`
configured, the model string `group/m` has the literal form
`alias/model` with `alias` naming a configured Provider, yet resolution
does not return that Provider — the group prefix wins and resolution
raises 404 `Model Group not found` instead. -/
theorem direct_route_counterexample :
    dbGetProvider db8c ("group") = some ⟨("group"), ("sk-x"), none, ("openai")⟩ ∧
    splitFirst rawGroupM '/' = some (("group"), ("m")) ∧
    (select_model_from_group db8c true 0 0 rawGroupM).1 =
      RouteResult.httpError ⟨404, "Model Group " ++ q ("m") ++ " not found."⟩ ∧
    (select_model_from_group db8c true 0 0 rawGroupM).1 ≠
      RouteResult.ok ⟨("group"), ("sk-x"), none, ("openai")⟩ ("m") := by
  refine ⟨by decide, by decide, by decide, by decide⟩

/-- Claim C8, amended: for every model string of the literal form
`alias/model` that does not carry the `group/` prefix, if `alias` names
a configured Provider then resolution returns exactly that Provider with
the model suffix unchanged (and the round-robin counter untouched), and
if `alias` names no configured Provider then resolution yields no
provider and the chat endpoint fails with the 404 not-found error. -/
theorem direct_route (db : DB) (redisAvail : Bool) (rr : Int) (pick : Nat)
    (raw aliasName rest : String)
    (hp : strStartsWith raw groupNS = false)
    (hsplit : splitFirst raw '/' = some (aliasName, rest)) :
    (∀ p : Provider, dbGetProvider db aliasName = some p →
        select_model_from_group db redisAvail rr pick raw = (RouteResult.ok p rest, rr)) ∧
    (dbGetProvider db aliasName = none →
        select_model_from_group db redisAvail rr pick raw = (RouteResult.noRoute, rr) ∧
        chat_route db redisAvail rr pick raw =
          Except.error ⟨404, "Model " ++ q raw ++ " not found. Use " ++ q groupNameHint
            ++ " or " ++ q providerModelHint ++ "."⟩) := by
  constructor
  · intro p hprov
    simp [select_model_from_group, hp, hsplit, hprov]
  · intro hnone
    have hsel : select_model_from_group db redisAvail rr pick raw =
        (RouteResult.noRoute, rr) := by
      simp [select_model_from_group, hp, hsplit, hnone]
    exact ⟨hsel, by simp [chat_route, hsel]⟩

/-- Witness for `direct_route`: the direct route `p1/gpt-x` resolves to
provider `p1` with model `gpt-x`. -/
theorem direct_route_witness :
    select_model_from_group db8w true 0 0 rawP1 =
      (RouteResult.ok ⟨("p1"), ("sk-1"), none, ("openai")⟩ ("gpt-x"), 0) :=
  (direct_route db8w true 0 0 rawP1 ("p1") ("gpt-x") (by decide) (by decide)).1
    ⟨("p1"), ("sk-1"), none, ("openai")⟩ (by decide)

/-! ## Claim C9 -/

/-- Claim C9: with the Redis client unavailable, resolving a group whose
strategy is `round_robin` is extensionally the strategy-`random`
resolution — the same uniform `random.choice` among the members decides
the outcome for the same draw — and the round-robin counter is never
touched (the result is the other configuration's result paired with the
unchanged counter, for any two counter offsets). -/
theorem round_robin_no_redis_random (gid : String) (desc : Option String)
    (ms : List GroupMember) (ps : List Provider) (rr rr2 : Int) (pick : Nat) (raw : String)
    (hp : strStartsWith raw groupNS = true)
    (hgid : groupIdOf raw = gid) :
    select_model_from_group ⟨[⟨gid, desc, "round_robin"⟩], ms, ps⟩ false rr pick raw =
      ((select_model_from_group ⟨[⟨gid, desc, "random"⟩], ms, ps⟩ false rr2 pick raw).1,
       rr) := by
  simp [select_model_from_group, hp, hgid, dbGetGroup, dbGroupMembers, List.find?,
    pickMember, memberRoute, dbGetProvider]
  split <;> simp_all

/-- Witness for `round_robin_no_redis_random` on the three-member group
with distinct counter offsets 7 and 9. -/
theorem round_robin_no_redis_random_witness :
    select_model_from_group ⟨[⟨("g"), none, "round_robin"⟩], db6.members, db6.providers⟩
        false 7 3 rawG =
      ((select_model_from_group ⟨[⟨("g"), none, "random"⟩], db6.members, db6.providers⟩
          false 9 3 rawG).1, 7) :=
  round_robin_no_redis_random ("g") none db6.members db6.providers 7 9 3 rawG (by decide)
    (by decide)

/-! ## Claim C6 -/

/-- Rotation fairness: for any starting offset `c`, the `N` indices
`(c + j + 1) % N` for `j = 0, .., N - 1` are a permutation of
`0, .., N - 1`. -/
theorem emod_toNat_rotation (c : Int) (N : Nat) (hN : 0 < N) :
    ((List.range N).map (fun (j : Nat) => ((c + (j : Int) + 1) % (N : Int)).toNat)).Perm
      (List.range N) := by
  have hN0 : ((N : Int)) ≠ 0 := by exact_mod_cast Nat.pos_iff_ne_zero.mp hN
  have hNpos : (0 : Int) < (N : Int) := by exact_mod_cast hN
  have hmem : ∀ j : Nat, ((c + j + 1) % (N : Int)).toNat < N := by
    intro j
    have h1 : (c + j + 1) % (N : Int) < N := Int.emod_lt_of_pos _ hNpos
    have h2 : (0 : Int) ≤ (c + j + 1) % (N : Int) := Int.emod_nonneg _ hN0
    omega
  have hnodup : ((List.range N).map (fun (j : Nat) => ((c + (j : Int) + 1) % (N : Int)).toNat)).Nodup := by
    refine List.Nodup.map_on ?_ (List.nodup_range N)
    intro x hx y hy hxy
    have hx' : x < N := List.mem_range.mp hx
    have hy' : y < N := List.mem_range.mp hy
    have e1 : (0 : Int) ≤ (c + x + 1) % (N : Int) := Int.emod_nonneg _ hN0
    have e2 : (0 : Int) ≤ (c + y + 1) % (N : Int) := Int.emod_nonneg _ hN0
    have hmod : (c + x + 1) % (N : Int) = (c + y + 1) % (N : Int) := by omega
    have hme : Int.ModEq (N : Int) (c + 1 + x) (c + 1 + y) := by
      have ex : c + 1 + (x : Int) = c + x + 1 := by ring
      have ey : c + 1 + (y : Int) = c + y + 1 := by ring
      unfold Int.ModEq
      rw [ex, ey]
      exact hmod
    have hcancel : ((x : Int)) % (N : Int) = ((y : Int)) % (N : Int) :=
      Int.ModEq.add_left_cancel' (c + 1) hme
    have hxm : ((x : Int)) % (N : Int) = x :=
      Int.emod_eq_of_lt (by omega) (by exact_mod_cast hx')
    have hym : ((y : Int)) % (N : Int) = y :=
      Int.emod_eq_of_lt (by omega) (by exact_mod_cast hy')
    omega
  have hsub : ((List.range N).map (fun (j : Nat) => ((c + (j : Int) + 1) % (N : Int)).toNat)) ⊆
      List.range N := by
    intro a ha
    simp only [List.mem_map, List.mem_range] at ha
    obtain ⟨j, _, rfl⟩ := ha
    exact List.mem_range.mpr (hmem j)
  exact (List.subperm_of_subset hnodup hsub).perm_of_length_le (by simp)

/-- One round-robin resolution with Redis available: the counter is
atomically incremented and the member at index
(post-increment counter) mod (member count) is routed. -/
theorem round_robin_step (db : DB) (raw : String) (g : ModelGroup) (pick : Nat) (c : Int)
    (hp : strStartsWith raw groupNS = true)
    (hg : dbGetGroup db (groupIdOf raw) = some g)
    (hstrat : g.balance_strategy = "round_robin")
    (hms : (dbGroupMembers db (groupIdOf raw)).isEmpty = false) :
    select_model_from_group db true c pick raw =
      (memberRoute db ((dbGroupMembers db (groupIdOf raw)).getD
          (((c + 1) % ((dbGroupMembers db (groupIdOf raw)).length : Int)).toNat) default),
       c + 1) := by
  simp [select_model_from_group, hp, hg, hms, pickMember, hstrat]

/-- Claim C6: with Redis configured, resolving a `round_robin` group
increments the shared per-group counter and selects the member at index
(counter mod member count), so that for any starting offset `c` the `j`-th
of `N` consecutive resolutions routes member `(c + j + 1) % N` — and those
`N` indices visit every member exactly once before repeating. -/
theorem round_robin_rotation (db : DB) (raw : String) (g : ModelGroup) (pick : Nat) (c : Int)
    (hp : strStartsWith raw groupNS = true)
    (hg : dbGetGroup db (groupIdOf raw) = some g)
    (hstrat : g.balance_strategy = "round_robin")
    (hms : (dbGroupMembers db (groupIdOf raw)).isEmpty = false) :
    (∀ j : Nat, select_model_from_group db true (c + j) pick raw =
        (memberRoute db ((dbGroupMembers db (groupIdOf raw)).getD
            (((c + j + 1) % ((dbGroupMembers db (groupIdOf raw)).length : Int)).toNat)
            default),
         c + j + 1)) ∧
    ((List.range (dbGroupMembers db (groupIdOf raw)).length).map
        (fun (j : Nat) => ((c + (j : Int) + 1) % ((dbGroupMembers db (groupIdOf raw)).length : Int)).toNat)).Perm
      (List.range (dbGroupMembers db (groupIdOf raw)).length) := by
  constructor
  · intro j
    exact round_robin_step db raw g pick (c + j) hp hg hstrat hms
  · refine emod_toNat_rotation c _ ?_
    have hne : dbGroupMembers db (groupIdOf raw) ≠ [] := by
      intro h
      rw [h] at hms
      simp at hms
    exact List.length_pos.mpr hne

/-- Witness for `round_robin_rotation`: three consecutive resolutions of
the three-member group `g` from counter offset 4 route members 3, 1 and 2
in turn — each member exactly once — while the counter advances 5, 6, 7. -/
theorem round_robin_rotation_witness :
    select_model_from_group db6 true 4 0 rawG =
      (RouteResult.ok ⟨("p3"), ("k3"), none, ("openai")⟩ ("t3"), 5) ∧
    select_model_from_group db6 true 5 0 rawG =
      (RouteResult.ok ⟨("p1"), ("k1"), none, ("openai")⟩ ("t1"), 6) ∧
    select_model_from_group db6 true 6 0 rawG =
      (RouteResult.ok ⟨("p2"), ("k2"), none, ("openai")⟩ ("t2"), 7) := by
  have h := round_robin_rotation db6 rawG ⟨("g"), none, ("round_robin")⟩ 0 4 (by decide)
    (by decide) rfl (by decide)
  refine ⟨?_, ?_, ?_⟩
  · have h0 := h.1 0
    norm_num at h0
    exact h0.trans (by decide)
  · have h1 := h.1 1
    norm_num at h1
    exact h1.trans (by decide)
  · have h2 := h.1 2
    norm_num at h2
    exact h2.trans (by decide)

/-! ## Claim C7 -/

/-- Claim C7: every backend exception is normalized to a
`message`/`type`/`code` error object whose `code` is the exception's
integer `status_code` attribute when present and 500 otherwise, whose
HTTP status equals that `code`, and whose `type` is the mechanical
CamelCase-to-snake_case rendering of the exception's class name; in
particular a 401 `AuthenticationError` yields HTTP 401 with type
`authentication_error`. -/
theorem error_normalization (e : PyExc) :
    ((handle_litellm_exception e).code =
      match e.statusAttr with
      | some sc => sc
      | none => 500) ∧
    (handle_litellm_exception e).httpStatus = (handle_litellm_exception e).code ∧
    (handle_litellm_exception e).errType = camelToSnake e.className ∧
    handle_litellm_exception authExc =
      ⟨401, "Invalid upstream key", "authentication_error", 401⟩ := by
  refine ⟨rfl, rfl, rfl, by decide⟩

/-! ## Claim C2 -/

/-- Claim C2, divergence witness: `list_models` is a pure fan-out over
the current Provider rows — there is no cache state in its signature at
all — so with providers p1, p2 a first call lists both providers' models
while a call made immediately after p2 is removed (well within any
5-minute TTL window) already omits p2's models instead of returning the
first call's bytes. -/
theorem list_models_no_cache :
    list_models demoUpstream [p1C, p2C] [] 0 =
      [⟨("p1/m1"), ("model"), 1700000000, ("openai")⟩,
       ⟨("p2/m2"), ("model"), 1700000000, ("openai")⟩] ∧
    list_models demoUpstream [p1C] [] 0 =
      [⟨("p1/m1"), ("model"), 1700000000, ("openai")⟩] ∧
    list_models demoUpstream [p1C] [] 0 ≠ list_models demoUpstream [p1C, p2C] [] 0 := by
  refine ⟨by decide, by decide, by decide⟩

end AIGateway
